import Mathlib

/-!
Shallow embedding of the Prisma-Enhanced-Remediation runbooks
(`AWS/lambda_package/runbooks/AWS-EC2-001.py`, `AWS-RDS-005.py`,
`AWS-ELB-013.py`, `AWS-ELB-015.py`).

Each runbook is a linear procedure: describe the resource, decide whether
remediation is needed, issue at most a handful of mutating AWS calls, and log
the outcome.  We model each boto3 call outcome as an input (an `Except` value
in an environment record), and each remediator as a pure function from the
alert and that environment to the list of mutating calls it issues, the log
lines it prints, and the uncaught Python exception (if any) that escapes to
the caller.
-/

/-- Models Python `str.split(sep)` for a one-character separator:
accumulates the current field and starts a new one at each separator, so
`"a//b".split("/") = ["a", "", "b"]` and `"".split("/") = [""]`. -/
def pySplitAux (sep : Char) : List Char → List Char → List String
  | [], acc => [String.mk acc.reverse]
  | c :: cs, acc =>
    if c = sep then String.mk acc.reverse :: pySplitAux sep cs []
    else pySplitAux sep cs (c :: acc)

/-- Python `s.split(sep)` for a one-character separator. -/
def pySplit (s : String) (sep : Char) : List String :=
  pySplitAux sep s.data []

/-- Models the Python substring test `pat in s`. -/
def hasInfixAux (pat : List Char) : List Char → Bool
  | [] => decide (pat = [])
  | c :: cs => pat.isPrefixOf (c :: cs) || hasInfixAux pat cs

/-- Python `pat in s` (substring containment) on strings. -/
def strContains (s pat : String) : Bool :=
  hasInfixAux pat.data s.data

example : pySplit "app/myelb/abc123" '/' = ["app", "myelb", "abc123"] := by decide
example : pySplit "noslash" '/' = ["noslash"] := by decide
example : pySplit "arn:aws:elasticloadbalancing:us-east-1:123456789012:loadbalancer/app/x/y" ':'
    = ["arn", "aws", "elasticloadbalancing", "us-east-1", "123456789012", "loadbalancer/app/x/y"] := by
  decide
example : strContains "User: Access Denied for op" "Access Denied" = true := by decide
example : strContains "something else" "Access Denied" = false := by decide

/-- The alert record passed to every `remediate` entry point:
`alert['resource_id']` and `alert['region']`. -/
structure Alert where
  resource_id : String
  region : String
deriving Repr, DecidableEq

/-- A botocore `ClientError`, as the runbooks consume it:
`e.response['Error']['Code']` and `e.response['Error']['Message']`. -/
structure ClientError where
  code : String
  message : String
deriving Repr, DecidableEq

/-- A Python exception the runbook does not catch, which therefore escapes
the `remediate` entry point to its caller. -/
inductive PyErr where
  | indexError
  | keyError (key : String)
deriving Repr, DecidableEq

/-- The principal of a bucket-policy statement: either an `'AWS'` IAM ARN or
a `'Service'` name. -/
inductive Principal where
  | aws (arn : String)
  | service (name : String)
deriving Repr, DecidableEq

/-- One statement of the generated S3 bucket policy.  `condition` holds the
`'StringEquals'` key/value pair when present. -/
structure PolicyStatement where
  sid : Option String
  effect : String
  principal : Principal
  action : String
  resource : String
  condition : Option (String × String)
deriving Repr, DecidableEq

/-- The generated S3 bucket policy document. -/
structure PolicyDoc where
  version : String
  statements : List PolicyStatement
deriving Repr, DecidableEq

/-- The per-region ELB log-delivery account-id chain at the top of
`BucketTemplate.BucketPolicy`, identical in `AWS-ELB-013.py` (lines 196-232)
and `AWS-ELB-015.py` (lines 198-234): `elb_account_id` starts at the default
`'123456789012'` and the `if`/`elif` chain overwrites it for the sixteen
listed regions. -/
def elbAccountId (region : String) : String :=
  if region = "ap-northeast-1" then "582318560864"
  else if region = "ap-northeast-2" then "600734575887"
  else if region = "ap-northeast-3" then "383597477331"
  else if region = "ap-south-1" then "718504428378"
  else if region = "ap-southeast-1" then "114774131450"
  else if region = "ap-southeast-2" then "783225319266"
  else if region = "ca-central-1" then "985666609251"
  else if region = "eu-central-1" then "054676820928"
  else if region = "eu-west-1" then "156460612806"
  else if region = "eu-west-2" then "652711504416"
  else if region = "eu-west-3" then "009996457667"
  else if region = "sa-east-1" then "507241528517"
  else if region = "us-east-1" then "127311923021"
  else if region = "us-east-2" then "033677994240"
  else if region = "us-west-1" then "027434742980"
  else if region = "us-west-2" then "797873946194"
  else "123456789012"

/-- The sixteen region codes the `BucketPolicy` chain maps explicitly.  A
region outside this list keeps the initial default `'123456789012'`. -/
def mappedRegions : List String :=
  ["ap-northeast-1", "ap-northeast-2", "ap-northeast-3", "ap-south-1",
   "ap-southeast-1", "ap-southeast-2", "ca-central-1", "eu-central-1",
   "eu-west-1", "eu-west-2", "eu-west-3", "sa-east-1",
   "us-east-1", "us-east-2", "us-west-1", "us-west-2"]

namespace BucketTemplate

/-- `BucketTemplate.BucketPolicy(self, account_id, region)` from
`AWS-ELB-013.py` lines 194-268 and (identically) `AWS-ELB-015.py` lines
196-270.  Both call sites invoke it on the class as
`BucketTemplate.BucketPolicy(bucket_name, account_id, region)`, so the
`self` parameter is bound to the bucket name and appears in the resource
ARNs. -/
def BucketPolicy (self account_id region : String) : PolicyDoc :=
  let elb_account_id := elbAccountId region
  ⟨"2012-10-17",
   [⟨some "ELBLoggingPolicy", "Allow",
     Principal.aws ("arn:aws:iam::" ++ elb_account_id ++ ":root"),
     "s3:PutObject",
     "arn:aws:s3:::" ++ self ++ "/*/AWSLogs/" ++ account_id ++ "/*",
     none⟩,
    ⟨none, "Allow",
     Principal.service "delivery.logs.amazonaws.com",
     "s3:PutObject",
     "arn:aws:s3:::" ++ self ++ "/*/AWSLogs/" ++ account_id ++ "/*",
     some ("s3:x-amz-acl", "bucket-owner-full-control")⟩,
    ⟨none, "Allow",
     Principal.service "delivery.logs.amazonaws.com",
     "s3:GetBucketAcl",
     "arn:aws:s3:::" ++ self,
     none⟩]⟩

end BucketTemplate

/-- A mutating AWS API call issued by a runbook.  The read-only describe and
lookup calls are modelled by the environment records, not recorded here. -/
inductive Effect where
  | createSnapshot (volumeId desc : String)
  | modifyDBInstance (instanceId : String) (publiclyAccessible : Bool)
  | createBucket (bucket : String) (locationConstraint : Option String)
  | putObject (bucket key : String)
  | putBucketPolicy (bucket : String) (policy : PolicyDoc)
  | modifyELBAttribs (name : String) (enabled : Bool) (bucket : String)
      (emitInterval : Nat) (pfx : String)
  | modifyELBv2Attribs (arn : String) (attribs : List (String × String))
deriving Repr, DecidableEq

/-- True exactly for the two load-balancer attribute-modification calls that
turn access logging on. -/
def Effect.isModifyAttribs : Effect → Bool
  | .modifyELBAttribs .. => true
  | .modifyELBv2Attribs .. => true
  | _ => false

/-- The observable outcome of one `remediate` invocation: the mutating calls
issued in order, the lines printed, and the uncaught exception (if any) that
escapes to the caller (`none` means the function returns normally). -/
structure RunResult where
  effects : List Effect
  logs : List String
  exn : Option PyErr
deriving Repr, DecidableEq

/-- The outcome of a helper that returns a string (`'fail'` or a real value)
while also issuing calls and printing. -/
structure StepResult where
  ret : String
  effects : List Effect
  logs : List String
deriving Repr, DecidableEq

/-! ## AWS-EC2-001: EBS volume snapshot freshness -/

/-- One element of the `describe_snapshots` response list.  `startDate` is
`snapshot['StartTime'].date()` as a day number, so that subtraction of two
dates gives `delta.days` exactly. -/
structure Snapshot where
  startDate : Int
deriving Repr, DecidableEq

/-- Environment for one `AWS-EC2-001.py` invocation: the outcome of each
boto3 call and today's date (`date.today()`) as a day number. -/
structure EC2Env where
  describeSnapshots : Except ClientError (List Snapshot)
  createSnapshot : Except ClientError String
  today : Int
deriving Repr

/-- `snapshot_age = 15` from `AWS-EC2-001.py` line 49. -/
def snapshot_age : Int := 15

/-- `new_ebs_snapshot(ec2, volume_id)` from `AWS-EC2-001.py` lines 83-97:
issues the create-snapshot call, prints the new snapshot id on success or
the provider message on `ClientError`, and never re-raises. -/
def new_ebs_snapshot (env : EC2Env) (volume_id : String) : RunResult :=
  let eff := Effect.createSnapshot volume_id "Autoremediate snapshot"
  match env.createSnapshot with
  | .ok snapshot_id =>
    ⟨[eff], ["New snapshot " ++ snapshot_id ++ " created for EBS Volume " ++
             volume_id ++ "."], none⟩
  | .error e => ⟨[eff], [e.message], none⟩

/-- `remediate(session, alert, lambda_context)` from `AWS-EC2-001.py` lines
52-80: a failed describe aborts with the message logged; otherwise the
decision reads `snapshot[0]['StartTime']` (the first listed snapshot) when
the list is non-empty, and `delta.days >= snapshot_age` decides whether
`new_ebs_snapshot` runs; an empty list always remediates. -/
def remediateEC2 (alert : Alert) (env : EC2Env) : RunResult :=
  match env.describeSnapshots with
  | .error e => ⟨[], [e.message], none⟩
  | .ok snapshot =>
    match snapshot with
    | s :: _ =>
      -- snapshot_needed = delta.days >= snapshot_age
      if env.today - s.startDate ≥ snapshot_age then
        new_ebs_snapshot env alert.resource_id
      else ⟨[], [], none⟩
    | [] =>
      -- snapshot_needed = True
      new_ebs_snapshot env alert.resource_id

/-- Spec-side definition, following the spec's words "take the most recently
created snapshot": the greatest creation date among the listed snapshots.
For comparison with the code, which reads the first listed snapshot. -/
def specLatestStart (snaps : List Snapshot) : Option Int :=
  (snaps.map Snapshot.startDate).max?

/-! ## AWS-RDS-005: publicly accessible RDS instance -/

/-- One element of the `describe_db_instances` response list.
`publiclyAccessible` is `none` when the `'PubliclyAccessible'` key is
missing (the code catches the resulting `KeyError`). -/
structure DBInstance where
  publiclyAccessible : Option Bool
  dbInstanceIdentifier : String
deriving Repr, DecidableEq

/-- Environment for one `AWS-RDS-005.py` invocation. -/
structure RDSEnv where
  describeDBInstances : Except ClientError (List DBInstance)
  modifyDBInstance : Except ClientError Unit
deriving Repr

/-- `remediate(session, alert, lambda_context)` from `AWS-RDS-005.py` lines
38-83: a failed describe aborts with the message logged; an empty instance
list or missing `'PubliclyAccessible'` key is caught and treated as
`public = False`; when the flag is true, one modify call sets
`PubliclyAccessible = False`, logging success or the provider message. -/
def remediateRDS (alert : Alert) (env : RDSEnv) : RunResult :=
  match env.describeDBInstances with
  | .error e => ⟨[], [e.message], none⟩
  | .ok db_instance =>
    match db_instance with
    | [] => ⟨[], [], none⟩
    | d :: _ =>
      let public := d.publiclyAccessible.getD false
      if public then
        let eff := Effect.modifyDBInstance d.dbInstanceIdentifier false
        match env.modifyDBInstance with
        | .error e => ⟨[eff], [e.message], none⟩
        | .ok _ =>
          ⟨[eff], ["Removed public attribute from RDS instance " ++
                   d.dbInstanceIdentifier ++ "."], none⟩
      else ⟨[], [], none⟩

/-! ## AWS-ELB-013: classic ELB access log -/

/-- The `'AccessLog'` sub-dictionary of the classic-ELB attribute response:
the code reads `logging['Enabled']`. -/
structure AccessLog where
  enabled : Bool
deriving Repr, DecidableEq

/-- The `describe_load_balancer_attributes` response for a classic ELB.
`accessLog` is `none` when the `'AccessLog'` key is missing — the code reads
`attribs['AccessLog']` outside any `try`, so that raises `KeyError`. -/
structure ELBAttribs where
  accessLog : Option AccessLog
deriving Repr, DecidableEq

/-- Environment for one `AWS-ELB-013.py` invocation: the outcome of each
boto3 call the runbook can make. -/
structure ELBEnv where
  describeAttribs : Except ClientError ELBAttribs
  getCallerIdentity : Except ClientError String
  createBucket : Except ClientError Unit
  putObject : Except ClientError Unit
  putBucketPolicy : Except ClientError Unit
  modifyAttribs : Except ClientError Unit
deriving Repr

/-- `get_account_id(sts)` from `AWS-ELB-013.py` lines 178-189: returns the
caller's account id, or logs the provider message and returns `'fail'`. -/
def get_account_id (env : ELBEnv) : StepResult :=
  match env.getCallerIdentity with
  | .ok account_id => ⟨account_id, [], []⟩
  | .error e => ⟨"fail", [], [e.message]⟩

/-- `new_s3_bucket(s3, elb_name, account_id, region)` from `AWS-ELB-013.py`
lines 122-175: creates bucket `elblogs-<account_id>-<region>` (with a
location constraint except in `us-east-1`), treating creation errors with
code `BucketAlreadyExists` or `BucketAlreadyOwnedByYou` as success and any
other creation error as `'fail'`; then puts the `<elb_name>/` marker object
and the bucket policy, each failure logging and returning `'fail'` (a
`put_bucket_policy` message containing `Invalid principal` is rewritten to
the region hint). -/
def newS3Bucket13 (env : ELBEnv) (elb_name account_id region : String) :
    StepResult :=
  let bucket_name := "elblogs-" ++ account_id ++ "-" ++ region
  let loc : Option String :=
    if region = "us-east-1" then none else some region
  let effCreate := Effect.createBucket bucket_name loc
  let created : Except String String :=
    match env.createBucket with
    | .ok _ => .ok ("New S3 bucket created: " ++ bucket_name)
    | .error e =>
      if e.code = "BucketAlreadyExists" then
        .ok ("Using existing S3 bucket: " ++ bucket_name)
      else if e.code = "BucketAlreadyOwnedByYou" then
        .ok ("Using already owned and existing S3 bucket: " ++ bucket_name)
      else .error e.message
  match created with
  | .error msg => ⟨"fail", [effCreate], [msg]⟩
  | .ok logCreate =>
    let effPut := Effect.putObject bucket_name (elb_name ++ "/")
    match env.putObject with
    | .error e => ⟨"fail", [effCreate, effPut], [logCreate, e.message]⟩
    | .ok _ =>
      let effPolicy := Effect.putBucketPolicy bucket_name
        (BucketTemplate.BucketPolicy bucket_name account_id region)
      match env.putBucketPolicy with
      | .error e =>
        let msg :=
          if strContains e.message "Invalid principal" then
            "Invalid principal: Check the AWS ELB Account Id for the " ++
              region ++ " region."
          else e.message
        ⟨"fail", [effCreate, effPut, effPolicy], [logCreate, msg]⟩
      | .ok _ => ⟨bucket_name, [effCreate, effPut, effPolicy], [logCreate]⟩

/-- `enable_access_log(elb, elb_name, bucket_name, region)` from
`AWS-ELB-013.py` lines 93-119: one attribute-modification call enabling the
access log with a 60-second emit interval and the ELB name as the bucket
key prefix; an `Access Denied` message is rewritten to the region hint,
other provider messages are logged verbatim, success logs a confirmation. -/
def enableAccessLog13 (env : ELBEnv) (elb_name bucket_name region : String) :
    RunResult :=
  let eff := Effect.modifyELBAttribs elb_name true bucket_name 60 elb_name
  match env.modifyAttribs with
  | .error e =>
    let msg :=
      if strContains e.message "Access Denied" then
        "Access Denied: Check the AWS ELB Account Id for the " ++
          region ++ " region."
      else e.message
    ⟨[eff], [msg], none⟩
  | .ok _ => ⟨[eff], ["Enabled Access Log for ELB " ++ elb_name ++ "."], none⟩

/-- `remediate(session, alert, lambda_context)` from `AWS-ELB-013.py` lines
61-90: `elb_name = arn.split('/')[1]` (an `IndexError` escapes when the
resource id has no `/`); a failed attribute describe aborts with the
message logged; `attribs['AccessLog']` raises `KeyError` when missing; if
`logging['Enabled'] != True` the runbook resolves the account id, provisions
the bucket, and — unless either step returned `'fail'` — enables the access
log. -/
def remediate013 (alert : Alert) (env : ELBEnv) : RunResult :=
  match (pySplit alert.resource_id '/').get? 1 with
  | none => ⟨[], [], some PyErr.indexError⟩
  | some elb_name =>
    let region := alert.region
    match env.describeAttribs with
    | .error e => ⟨[], [e.message], none⟩
    | .ok attribs =>
      match attribs.accessLog with
      | none => ⟨[], [], some (PyErr.keyError "AccessLog")⟩
      | some logging =>
        if logging.enabled ≠ true then
          let acct := get_account_id env
          if acct.ret ≠ "fail" then
            let br := newS3Bucket13 env elb_name acct.ret region
            if br.ret ≠ "fail" then
              let er := enableAccessLog13 env elb_name br.ret region
              ⟨acct.effects ++ br.effects ++ er.effects,
               acct.logs ++ br.logs ++ er.logs, none⟩
            else ⟨acct.effects ++ br.effects, acct.logs ++ br.logs, none⟩
          else ⟨acct.effects, acct.logs, none⟩
        else ⟨[], [], none⟩

/-! ## AWS-ELB-015: application (elbv2) ELB access log -/

/-- One element of the `describe_load_balancers` response list.
`loadBalancerArn` is `none` when the `'LoadBalancerArn'` key is missing
(the code catches the resulting `KeyError`). -/
structure LoadBalancer where
  loadBalancerArn : Option String
deriving Repr, DecidableEq

/-- Environment for one `AWS-ELB-015.py` invocation: the outcome of each
boto3 call the runbook can make. -/
structure ELBv2Env where
  describeLoadBalancers : Except ClientError (List LoadBalancer)
  describeAttribs : Except ClientError (List (String × String))
  createBucket : Except ClientError Unit
  putObject : Except ClientError Unit
  putBucketPolicy : Except ClientError Unit
  modifyAttribs : Except ClientError Unit
deriving Repr

/-- The `for attrib in attribs` loop of `AWS-ELB-015.py` lines 89-91: the
value of the last attribute whose `'Key'` matches, or the default when no
attribute matches. -/
def lastAttrValue (attribs : List (String × String)) (key dflt : String) :
    String :=
  attribs.foldl (fun acc a => if a.1 = key then a.2 else acc) dflt

/-- `new_s3_bucket(s3, elb_name, account_id, region)` from `AWS-ELB-015.py`
lines 138-191: identical to the classic variant except for the
`elbv2logs-` bucket-name pattern. -/
def newS3Bucket15 (env : ELBv2Env) (elb_name account_id region : String) :
    StepResult :=
  let bucket_name := "elbv2logs-" ++ account_id ++ "-" ++ region
  let loc : Option String :=
    if region = "us-east-1" then none else some region
  let effCreate := Effect.createBucket bucket_name loc
  let created : Except String String :=
    match env.createBucket with
    | .ok _ => .ok ("New S3 bucket created: " ++ bucket_name)
    | .error e =>
      if e.code = "BucketAlreadyExists" then
        .ok ("Using existing S3 bucket: " ++ bucket_name)
      else if e.code = "BucketAlreadyOwnedByYou" then
        .ok ("Using already owned and existing S3 bucket: " ++ bucket_name)
      else .error e.message
  match created with
  | .error msg => ⟨"fail", [effCreate], [msg]⟩
  | .ok logCreate =>
    let effPut := Effect.putObject bucket_name (elb_name ++ "/")
    match env.putObject with
    | .error e => ⟨"fail", [effCreate, effPut], [logCreate, e.message]⟩
    | .ok _ =>
      let effPolicy := Effect.putBucketPolicy bucket_name
        (BucketTemplate.BucketPolicy bucket_name account_id region)
      match env.putBucketPolicy with
      | .error e =>
        let msg :=
          if strContains e.message "Invalid principal" then
            "Invalid principal: Check the AWS ELB Account Id for the " ++
              region ++ " region."
          else e.message
        ⟨"fail", [effCreate, effPut, effPolicy], [logCreate, msg]⟩
      | .ok _ => ⟨bucket_name, [effCreate, effPut, effPolicy], [logCreate]⟩

/-- `enable_access_log(elbv2, elb_arn, elb_name, bucket_name, region)` from
`AWS-ELB-015.py` lines 103-135: one attribute-modification call setting the
three key/value attributes `access_logs.s3.enabled = "true"`,
`access_logs.s3.bucket = bucket_name` and `access_logs.s3.prefix =
elb_name`; an `Access Denied` message is rewritten to the region hint,
other messages are logged verbatim, success logs a confirmation. -/
def enableAccessLog15 (env : ELBv2Env)
    (elb_arn elb_name bucket_name region : String) : RunResult :=
  let eff := Effect.modifyELBv2Attribs elb_arn
    [("access_logs.s3.enabled", "true"),
     ("access_logs.s3.bucket", bucket_name),
     ("access_logs.s3.prefix", elb_name)]
  match env.modifyAttribs with
  | .error e =>
    let msg :=
      if strContains e.message "Access Denied" then
        "Access Denied: Check the AWS ELB Account Id for the " ++
          region ++ " region."
      else e.message
    ⟨[eff], [msg], none⟩
  | .ok _ =>
    ⟨[eff], ["Enabled Access Log for Application ELB " ++ elb_name ++ "."],
     none⟩

/-- `remediate(session, alert, lambda_context)` from `AWS-ELB-015.py` lines
54-100: `elb_name = arn.split('/')[2]` (an `IndexError` escapes when the
resource id has fewer than three `/`-segments); a failed lookup-by-name
aborts with the message logged; a missing first record or missing
`'LoadBalancerArn'` key is caught and logged as "Unable to find the ARN";
`account_id = elb_arn.split(':')[4]` is unguarded (an `IndexError` escapes
on a short ARN); a failed attribute describe aborts with the message
logged; the logging flag defaults to `'none'` and anything other than
`'true'` triggers bucket provisioning and, unless it returned `'fail'`,
the attribute-modification call. -/
def remediate015 (alert : Alert) (env : ELBv2Env) : RunResult :=
  match (pySplit alert.resource_id '/').get? 2 with
  | none => ⟨[], [], some PyErr.indexError⟩
  | some elb_name =>
    let region := alert.region
    match env.describeLoadBalancers with
    | .error e => ⟨[], [e.message], none⟩
    | .ok elb =>
      match elb.head?.bind LoadBalancer.loadBalancerArn with
      | none =>
        ⟨[], ["Error: Unable to find the ARN for Application ELB " ++
              elb_name ++ "."], none⟩
      | some elb_arn =>
        match (pySplit elb_arn ':').get? 4 with
        | none => ⟨[], [], some PyErr.indexError⟩
        | some account_id =>
          match env.describeAttribs with
          | .error e => ⟨[], [e.message], none⟩
          | .ok attribs =>
            let logging := lastAttrValue attribs "access_logs.s3.enabled"
              "none"
            if logging ≠ "true" then
              let br := newS3Bucket15 env elb_name account_id region
              if br.ret ≠ "fail" then
                let er := enableAccessLog15 env elb_arn elb_name br.ret
                  region
                ⟨br.effects ++ er.effects, br.logs ++ er.logs, none⟩
              else ⟨br.effects, br.logs, none⟩
            else ⟨[], [], none⟩

/-! ## Claims -/

/-- C1 counterexample: `af-south-1` is not one of the sixteen mapped region
codes, yet the generated policy's trusted log-delivery principal for it is
the silently substituted default account id `123456789012` — so the claim's
"no default fallback for unmapped regions" part fails on the code. -/
theorem C1_counterexample :
    "af-south-1" ∉ mappedRegions ∧
    (BucketTemplate.BucketPolicy "mybucket" "111122223333"
        "af-south-1").statements.map PolicyStatement.principal
      = [Principal.aws "arn:aws:iam::123456789012:root",
         Principal.service "delivery.logs.amazonaws.com",
         Principal.service "delivery.logs.amazonaws.com"] := by
  exact ⟨by decide, rfl⟩

/-- C1 (amended): the trusted log-delivery principal of the generated bucket
policy is exactly the table's id for every mapped region (in particular
`us-west-2` yields `797873946194` and `eu-west-1` yields `156460612806`),
but for a region code outside the documented mapping the builder silently
substitutes the default account id `123456789012` as the trusted
principal. -/
theorem C1_region_principal (self account_id region : String) :
    ((BucketTemplate.BucketPolicy self account_id region).statements.map
        PolicyStatement.principal).head?
      = some (Principal.aws ("arn:aws:iam::" ++ elbAccountId region ++
          ":root")) ∧
    elbAccountId "us-west-2" = "797873946194" ∧
    elbAccountId "eu-west-1" = "156460612806" ∧
    (region ∉ mappedRegions → elbAccountId region = "123456789012") := by
  refine ⟨rfl, by decide, by decide, ?_⟩
  intro h
  simp only [mappedRegions, List.mem_cons, List.mem_singleton] at h
  push_neg at h
  obtain ⟨h1, h2, h3, h4, h5, h6, h7, h8, h9, h10, h11, h12, h13, h14, h15,
    h16, -⟩ := h
  simp only [elbAccountId, if_neg h1, if_neg h2, if_neg h3, if_neg h4,
    if_neg h5, if_neg h6, if_neg h7, if_neg h8, if_neg h9, if_neg h10,
    if_neg h11, if_neg h12, if_neg h13, if_neg h14, if_neg h15, if_neg h16]

/-- C1 witness: the amended theorem applied at the unmapped region
`af-south-1`. -/
theorem C1_region_principal_witness :
    elbAccountId "af-south-1" = "123456789012" :=
  (C1_region_principal "b" "a" "af-south-1").2.2.2 (by decide)

/-- C10: for every bucket name (bound to `self`), account id and region, the
generated policy document has exactly three statements — a put-object grant
to the region-derived principal account, a put-object grant to the
log-delivery service principal, and a get-bucket-ACL grant to the
log-delivery service principal — whose resource ARNs are parameterized by
the bucket name and account id and whose trusted principal ARN is
parameterized by the region-derived account id; the builder is a pure
function of these three inputs. -/
theorem C10_policy_shape (self account_id region : String) :
    (BucketTemplate.BucketPolicy self account_id region).version
      = "2012-10-17" ∧
    (BucketTemplate.BucketPolicy self account_id region).statements.length
      = 3 ∧
    (BucketTemplate.BucketPolicy self account_id region).statements.map
        (fun st => (st.principal, st.action))
      = [(Principal.aws ("arn:aws:iam::" ++ elbAccountId region ++ ":root"),
          "s3:PutObject"),
         (Principal.service "delivery.logs.amazonaws.com", "s3:PutObject"),
         (Principal.service "delivery.logs.amazonaws.com",
          "s3:GetBucketAcl")] ∧
    (BucketTemplate.BucketPolicy self account_id region).statements.map
        PolicyStatement.resource
      = ["arn:aws:s3:::" ++ self ++ "/*/AWSLogs/" ++ account_id ++ "/*",
         "arn:aws:s3:::" ++ self ++ "/*/AWSLogs/" ++ account_id ++ "/*",
         "arn:aws:s3:::" ++ self] := by
  exact ⟨rfl, rfl, rfl, rfl⟩

/-- C2 counterexample: with today = day 100 and the describe response
listing a 20-day-old snapshot first and a 1-day-old snapshot second, the
most recently created snapshot is 1 day old (under the 15-day threshold),
so per the claim no create-snapshot call should be issued — yet the code
reads only the first listed snapshot and issues one. -/
theorem C2_counterexample :
    specLatestStart [Snapshot.mk 80, Snapshot.mk 99] = some 99 ∧
    ¬ ((100 : Int) - 99 ≥ snapshot_age) ∧
    (remediateEC2 (Alert.mk "vol-1" "us-east-1")
        (EC2Env.mk (Except.ok [Snapshot.mk 80, Snapshot.mk 99])
          (Except.ok "snap-new") 100)).effects
      = [Effect.createSnapshot "vol-1" "Autoremediate snapshot"] := by
  exact ⟨rfl, by decide, rfl⟩

/-- C2 (amended): when the describe succeeds, a volume with no snapshots
always gets a create-snapshot call; otherwise the decision reads the FIRST
snapshot in the describe response (not the most recently created one), and
a create-snapshot call is issued if and only if the day difference between
today and that first-listed snapshot's creation date is at least 15 — so
it triggers at exactly 15 days and not at 14 days of that snapshot's
age. -/
theorem C2_first_listed (alert : Alert) (env : EC2Env)
    (snaps : List Snapshot)
    (hd : env.describeSnapshots = Except.ok snaps) :
    (snaps = [] →
      (remediateEC2 alert env).effects
        = [Effect.createSnapshot alert.resource_id
            "Autoremediate snapshot"]) ∧
    (∀ s rest, snaps = s :: rest →
      ((remediateEC2 alert env).effects
          = [Effect.createSnapshot alert.resource_id
              "Autoremediate snapshot"]
        ↔ env.today - s.startDate ≥ snapshot_age)) := by
  obtain ⟨ds, cs, today⟩ := env
  dsimp only at hd
  subst hd
  constructor
  · rintro rfl
    cases cs <;> rfl
  · rintro s rest rfl
    by_cases hage : today - s.startDate ≥ snapshot_age
    · simp only [remediateEC2, if_pos hage]
      cases cs <;> simp [new_ebs_snapshot, hage]
    · simp only [remediateEC2, if_neg hage]
      simp [hage]

/-- C2 witness: the amended theorem applied at a single snapshot exactly 15
days old, where the create-snapshot call is issued. -/
theorem C2_first_listed_witness :
    (remediateEC2 (Alert.mk "vol-1" "r")
        (EC2Env.mk (Except.ok [Snapshot.mk 85]) (Except.ok "s") 100)).effects
      = [Effect.createSnapshot "vol-1" "Autoremediate snapshot"] :=
  ((C2_first_listed (Alert.mk "vol-1" "r")
      (EC2Env.mk (Except.ok [Snapshot.mk 85]) (Except.ok "s") 100)
      [Snapshot.mk 85] rfl).2 (Snapshot.mk 85) [] rfl).mpr (by decide)

/-- C3: when the describe succeeds, a first-listed instance whose
`PubliclyAccessible` flag is true gets exactly one modify call setting the
flag to false; a false or missing flag, or an empty instance list, yields
zero modify calls. -/
theorem C3_rds_modify (alert : Alert) (env : RDSEnv)
    (dbs : List DBInstance)
    (hd : env.describeDBInstances = Except.ok dbs) :
    (dbs = [] → (remediateRDS alert env).effects = []) ∧
    (∀ d rest, dbs = d :: rest →
      (d.publiclyAccessible = some true →
        (remediateRDS alert env).effects
          = [Effect.modifyDBInstance d.dbInstanceIdentifier false]) ∧
      (d.publiclyAccessible ≠ some true →
        (remediateRDS alert env).effects = [])) := by
  obtain ⟨ds, ms⟩ := env
  dsimp only at hd
  subst hd
  constructor
  · rintro rfl; rfl
  · rintro d rest rfl
    obtain ⟨pa, did⟩ := d
    constructor
    · rintro hpub
      dsimp only at hpub
      subst hpub
      cases ms <;> rfl
    · intro hpub
      dsimp only at hpub
      match pa, hpub with
      | none, _ => rfl
      | some false, _ => rfl
      | some true, h => exact absurd rfl h

/-- Helper: the snapshot remediator returns normally for every alert and
every provider outcome. -/
theorem remediateEC2_exn_none (alert : Alert) (env : EC2Env) :
    (remediateEC2 alert env).exn = none := by
  obtain ⟨ds, cs, today⟩ := env
  cases ds with
  | error e => rfl
  | ok snaps =>
    cases snaps with
    | nil => cases cs <;> rfl
    | cons s rest =>
      by_cases hage : today - s.startDate ≥ snapshot_age
      · simp only [remediateEC2, if_pos hage]
        cases cs <;> rfl
      · simp only [remediateEC2, if_neg hage]

/-- Helper: the public-database remediator returns normally for every alert
and every provider outcome. -/
theorem remediateRDS_exn_none (alert : Alert) (env : RDSEnv) :
    (remediateRDS alert env).exn = none := by
  obtain ⟨ds, ms⟩ := env
  cases ds with
  | error e => rfl
  | ok dbs =>
    cases dbs with
    | nil => rfl
    | cons d rest =>
      obtain ⟨pa, did⟩ := d
      cases pa with
      | none => rfl
      | some b => cases b <;> cases ms <;> rfl

/-- Helper: the classic-ELB remediator returns normally provided the
resource id has a second `/`-segment and the attribute describe response
(when it succeeds) carries the `AccessLog` field. -/
theorem remediate013_exn_none (alert : Alert) (env : ELBEnv)
    (h1 : ((pySplit alert.resource_id '/').get? 1).isSome)
    (hAL : ∀ a, env.describeAttribs = Except.ok a → a.accessLog.isSome) :
    (remediate013 alert env).exn = none := by
  obtain ⟨n, hn⟩ := Option.isSome_iff_exists.mp h1
  obtain ⟨da, gci, cb, po, pp, ma⟩ := env
  unfold remediate013
  rw [hn]
  cases da with
  | error e => rfl
  | ok a =>
    obtain ⟨al⟩ := a
    have hsome := hAL ⟨al⟩ rfl
    cases al with
    | none => simp at hsome
    | some logging =>
      dsimp only
      by_cases hen : logging.enabled ≠ true
      · rw [if_pos hen]
        split
        · split <;> rfl
        · rfl
      · rw [if_neg hen]

/-- Helper: the v2-ELB remediator returns normally provided the resource id
has a third `/`-segment and any ARN obtained from the lookup has a fifth
`:`-segment. -/
theorem remediate015_exn_none (alert : Alert) (env : ELBv2Env)
    (h2 : ((pySplit alert.resource_id '/').get? 2).isSome)
    (hArn : ∀ lbs arn, env.describeLoadBalancers = Except.ok lbs →
      lbs.head?.bind LoadBalancer.loadBalancerArn = some arn →
      ((pySplit arn ':').get? 4).isSome) :
    (remediate015 alert env).exn = none := by
  obtain ⟨n, hn⟩ := Option.isSome_iff_exists.mp h2
  obtain ⟨dlb, da, cb, po, pp, ma⟩ := env
  unfold remediate015
  rw [hn]
  cases dlb with
  | error e => rfl
  | ok lbs =>
    dsimp only
    cases harn : lbs.head?.bind LoadBalancer.loadBalancerArn with
    | none => rfl
    | some elb_arn =>
      obtain ⟨acct, hacct⟩ :=
        Option.isSome_iff_exists.mp (hArn lbs elb_arn rfl harn)
      dsimp only
      rw [hacct]
      cases da with
      | error e => rfl
      | ok attribs =>
        dsimp only
        split
        · split <;> rfl
        · rfl

/-- C4 counterexample: a classic-ELB alert whose resource id has no `/`
raises an uncaught `IndexError` from `arn.split('/')[1]`, so the entry
point does not return normally for every input alert. -/
theorem C4_counterexample :
    (remediate013 (Alert.mk "noslash" "us-east-1")
        (ELBEnv.mk (Except.ok (ELBAttribs.mk (some (AccessLog.mk false))))
          (Except.ok "111122223333") (Except.ok ()) (Except.ok ())
          (Except.ok ()) (Except.ok ()))).exn
      = some PyErr.indexError := rfl

/-- C4 (amended): no provider-error outcome is ever re-thrown — the
snapshot and public-database remediators return normally for every alert
and provider outcome, and the two load-balancer remediators return
normally for every provider outcome provided the alert's resource id has
the expected number of path segments and the fields read without guard are
present (the `AccessLog` attribute for the classic handler, a fifth
ARN `:`-segment for the v2 handler); a resource id without those segments
raises an uncaught `IndexError`. -/
theorem C4_no_reraise (alert : Alert) (envE : EC2Env) (envR : RDSEnv)
    (env3 : ELBEnv) (env5 : ELBv2Env)
    (h1 : ((pySplit alert.resource_id '/').get? 1).isSome)
    (h2 : ((pySplit alert.resource_id '/').get? 2).isSome)
    (hAL : ∀ a, env3.describeAttribs = Except.ok a → a.accessLog.isSome)
    (hArn : ∀ lbs arn, env5.describeLoadBalancers = Except.ok lbs →
      lbs.head?.bind LoadBalancer.loadBalancerArn = some arn →
      ((pySplit arn ':').get? 4).isSome) :
    (remediateEC2 alert envE).exn = none ∧
    (remediateRDS alert envR).exn = none ∧
    (remediate013 alert env3).exn = none ∧
    (remediate015 alert env5).exn = none :=
  ⟨remediateEC2_exn_none alert envE, remediateRDS_exn_none alert envR,
   remediate013_exn_none alert env3 h1 hAL,
   remediate015_exn_none alert env5 h2 hArn⟩

/-- C4 witness: the amended theorem applied at a well-formed v2 alert with
failing describes, where all four entry points return normally. -/
theorem C4_no_reraise_witness :
    (remediate013 (Alert.mk "app/myelb/abc" "us-west-2")
        (ELBEnv.mk (Except.error (ClientError.mk "Throttling" "slow down"))
          (Except.ok "1") (Except.ok ()) (Except.ok ()) (Except.ok ())
          (Except.ok ()))).exn = none ∧
    (remediate015 (Alert.mk "app/myelb/abc" "us-west-2")
        (ELBv2Env.mk (Except.error (ClientError.mk "Throttling" "slow down"))
          (Except.ok []) (Except.ok ()) (Except.ok ()) (Except.ok ())
          (Except.ok ()))).exn = none :=
  ⟨(C4_no_reraise (Alert.mk "app/myelb/abc" "us-west-2")
      (EC2Env.mk (Except.ok []) (Except.ok "s") 0)
      (RDSEnv.mk (Except.ok []) (Except.ok ()))
      (ELBEnv.mk (Except.error (ClientError.mk "Throttling" "slow down"))
        (Except.ok "1") (Except.ok ()) (Except.ok ()) (Except.ok ())
        (Except.ok ()))
      (ELBv2Env.mk (Except.error (ClientError.mk "Throttling" "slow down"))
        (Except.ok []) (Except.ok ()) (Except.ok ()) (Except.ok ())
        (Except.ok ()))
      (by decide) (by decide)
      (fun a ha => Except.noConfusion ha)
      (fun lbs arn hl => Except.noConfusion hl)).2.2.1,
   (C4_no_reraise (Alert.mk "app/myelb/abc" "us-west-2")
      (EC2Env.mk (Except.ok []) (Except.ok "s") 0)
      (RDSEnv.mk (Except.ok []) (Except.ok ()))
      (ELBEnv.mk (Except.error (ClientError.mk "Throttling" "slow down"))
        (Except.ok "1") (Except.ok ()) (Except.ok ()) (Except.ok ())
        (Except.ok ()))
      (ELBv2Env.mk (Except.error (ClientError.mk "Throttling" "slow down"))
        (Except.ok []) (Except.ok ()) (Except.ok ()) (Except.ok ())
        (Except.ok ()))
      (by decide) (by decide)
      (fun a ha => Except.noConfusion ha)
      (fun lbs arn hl => Except.noConfusion hl)).2.2.2⟩

/-- C5 counterexample: two of the cited remediators do not treat a missing
decision field as "no remediation needed".  The classic-ELB remediator
raises an uncaught `KeyError` when the `AccessLog` field is missing, and
the v2-ELB remediator treats a missing `access_logs.s3.enabled` attribute
as logging-disabled and issues mutating calls (including the
attribute-modification call). -/
theorem C5_counterexample :
    (remediate013 (Alert.mk "abc/myelb" "us-east-1")
        (ELBEnv.mk (Except.ok (ELBAttribs.mk none)) (Except.ok "1")
          (Except.ok ()) (Except.ok ()) (Except.ok ()) (Except.ok ()))).exn
      = some (PyErr.keyError "AccessLog") ∧
    (remediate015 (Alert.mk "app/myelb/abc" "us-west-2")
        (ELBv2Env.mk
          (Except.ok [LoadBalancer.mk (some
            "arn:aws:elasticloadbalancing:us-west-2:111122223333:loadbalancer/app/myelb/abc")])
          (Except.ok []) (Except.ok ()) (Except.ok ()) (Except.ok ())
          (Except.ok ()))).effects.any Effect.isModifyAttribs = true := by
  exact ⟨rfl, rfl⟩

/-- C5 (amended): the public-database remediator treats an absent record or
missing `PubliclyAccessible` flag as "no remediation needed" (no mutating
call, no error); the v2-ELB remediator treats an absent load balancer or
missing `LoadBalancerArn` field as an abort with a logged message and no
mutating call; but a missing `AccessLog` field makes the classic-ELB
remediator raise an uncaught `KeyError` (and a missing logging attribute
makes the v2 remediator proceed with remediation rather than no-op). -/
theorem C5_missing_field (alert : Alert) (envR : RDSEnv) (env3 : ELBEnv)
    (env5 : ELBv2Env)
    (hR : envR.describeDBInstances = Except.ok [] ∨
      ∃ d rest, envR.describeDBInstances = Except.ok (d :: rest) ∧
        d.publiclyAccessible = none)
    (h5 : env5.describeLoadBalancers = Except.ok [] ∨
      ∃ rest, env5.describeLoadBalancers
        = Except.ok (LoadBalancer.mk none :: rest))
    (h3 : ∃ a, env3.describeAttribs = Except.ok a ∧ a.accessLog = none)
    (hn1 : ((pySplit alert.resource_id '/').get? 1).isSome)
    (hn2 : ((pySplit alert.resource_id '/').get? 2).isSome) :
    ((remediateRDS alert envR).effects = [] ∧
     (remediateRDS alert envR).exn = none) ∧
    ((remediate015 alert env5).effects = [] ∧
     (remediate015 alert env5).exn = none) ∧
    (remediate013 alert env3).exn = some (PyErr.keyError "AccessLog") := by
  refine ⟨?_, ?_, ?_⟩
  · obtain ⟨ds, ms⟩ := envR
    dsimp only at hR
    rcases hR with h | ⟨d, rest, h, hpa⟩
    · subst h
      exact ⟨rfl, rfl⟩
    · subst h
      obtain ⟨pa, did⟩ := d
      dsimp only at hpa
      subst hpa
      exact ⟨rfl, rfl⟩
  · obtain ⟨n, hn⟩ := Option.isSome_iff_exists.mp hn2
    obtain ⟨dlb, da, cb, po, pp, ma⟩ := env5
    dsimp only at h5
    unfold remediate015
    rw [hn]
    rcases h5 with h | ⟨rest, h⟩ <;> subst h <;> exact ⟨rfl, rfl⟩
  · obtain ⟨n, hn⟩ := Option.isSome_iff_exists.mp hn1
    obtain ⟨a, ha, hal⟩ := h3
    obtain ⟨da, gci, cb, po, pp, ma⟩ := env3
    dsimp only at ha
    subst ha
    obtain ⟨al⟩ := a
    dsimp only at hal
    subst hal
    unfold remediate013
    rw [hn]

/-- C5 witness: the amended theorem applied at an empty RDS instance list,
an empty v2 load-balancer list, and a classic attribute response missing
`AccessLog`. -/
theorem C5_missing_field_witness :
    (remediateRDS (Alert.mk "app/myelb/abc" "us-west-2")
        (RDSEnv.mk (Except.ok []) (Except.ok ()))).effects = [] ∧
    (remediate013 (Alert.mk "app/myelb/abc" "us-west-2")
        (ELBEnv.mk (Except.ok (ELBAttribs.mk none)) (Except.ok "1")
          (Except.ok ()) (Except.ok ()) (Except.ok ()) (Except.ok ()))).exn
      = some (PyErr.keyError "AccessLog") :=
  ⟨(C5_missing_field (Alert.mk "app/myelb/abc" "us-west-2")
      (RDSEnv.mk (Except.ok []) (Except.ok ()))
      (ELBEnv.mk (Except.ok (ELBAttribs.mk none)) (Except.ok "1")
        (Except.ok ()) (Except.ok ()) (Except.ok ()) (Except.ok ()))
      (ELBv2Env.mk (Except.ok []) (Except.ok []) (Except.ok ())
        (Except.ok ()) (Except.ok ()) (Except.ok ()))
      (Or.inl rfl) (Or.inl rfl) ⟨ELBAttribs.mk none, rfl, rfl⟩
      (by decide) (by decide)).1.1,
   (C5_missing_field (Alert.mk "app/myelb/abc" "us-west-2")
      (RDSEnv.mk (Except.ok []) (Except.ok ()))
      (ELBEnv.mk (Except.ok (ELBAttribs.mk none)) (Except.ok "1")
        (Except.ok ()) (Except.ok ()) (Except.ok ()) (Except.ok ()))
      (ELBv2Env.mk (Except.ok []) (Except.ok []) (Except.ok ())
        (Except.ok ()) (Except.ok ()) (Except.ok ()))
      (Or.inl rfl) (Or.inl rfl) ⟨ELBAttribs.mk none, rfl, rfl⟩
      (by decide) (by decide)).2.2⟩

/-- Helper: any bucket-provisioning step failing — a creation error other
than the two tolerated codes, a marker-object failure, or a
policy-attachment failure — makes `new_s3_bucket` (classic) return
`'fail'`. -/
theorem newS3Bucket13_fail (env : ELBEnv) (n a r : String)
    (h : (∃ e, env.createBucket = Except.error e ∧
            e.code ≠ "BucketAlreadyExists" ∧
            e.code ≠ "BucketAlreadyOwnedByYou") ∨
         (∃ e, env.putObject = Except.error e) ∨
         (∃ e, env.putBucketPolicy = Except.error e)) :
    (newS3Bucket13 env n a r).ret = "fail" := by
  obtain ⟨da, gci, cb, po, pp, ma⟩ := env
  dsimp only at h
  unfold newS3Bucket13
  dsimp only
  rcases h with ⟨e, he, h1, h2⟩ | ⟨e, he⟩ | ⟨e, he⟩ <;> subst he
  · dsimp only
    rw [if_neg h1, if_neg h2]
  · cases cb with
    | ok u => rfl
    | error e' =>
      dsimp only
      by_cases hb1 : e'.code = "BucketAlreadyExists"
      · rw [if_pos hb1]
      · rw [if_neg hb1]
        by_cases hb2 : e'.code = "BucketAlreadyOwnedByYou"
        · rw [if_pos hb2]
        · rw [if_neg hb2]
  · cases cb with
    | ok u => cases po with
      | error e' => rfl
      | ok u' => rfl
    | error e' =>
      dsimp only
      by_cases hb1 : e'.code = "BucketAlreadyExists"
      · rw [if_pos hb1]
        cases po with
        | error e'' => rfl
        | ok u' => rfl
      · rw [if_neg hb1]
        by_cases hb2 : e'.code = "BucketAlreadyOwnedByYou"
        · rw [if_pos hb2]
          cases po with
          | error e'' => rfl
          | ok u' => rfl
        · rw [if_neg hb2]

/-- Helper: same as `newS3Bucket13_fail` for the v2 variant. -/
theorem newS3Bucket15_fail (env : ELBv2Env) (n a r : String)
    (h : (∃ e, env.createBucket = Except.error e ∧
            e.code ≠ "BucketAlreadyExists" ∧
            e.code ≠ "BucketAlreadyOwnedByYou") ∨
         (∃ e, env.putObject = Except.error e) ∨
         (∃ e, env.putBucketPolicy = Except.error e)) :
    (newS3Bucket15 env n a r).ret = "fail" := by
  obtain ⟨dlb, da, cb, po, pp, ma⟩ := env
  dsimp only at h
  unfold newS3Bucket15
  dsimp only
  rcases h with ⟨e, he, h1, h2⟩ | ⟨e, he⟩ | ⟨e, he⟩ <;> subst he
  · dsimp only
    rw [if_neg h1, if_neg h2]
  · cases cb with
    | ok u => rfl
    | error e' =>
      dsimp only
      by_cases hb1 : e'.code = "BucketAlreadyExists"
      · rw [if_pos hb1]
      · rw [if_neg hb1]
        by_cases hb2 : e'.code = "BucketAlreadyOwnedByYou"
        · rw [if_pos hb2]
        · rw [if_neg hb2]
  · cases cb with
    | ok u => cases po with
      | error e' => rfl
      | ok u' => rfl
    | error e' =>
      dsimp only
      by_cases hb1 : e'.code = "BucketAlreadyExists"
      · rw [if_pos hb1]
        cases po with
        | error e'' => rfl
        | ok u' => rfl
      · rw [if_neg hb1]
        by_cases hb2 : e'.code = "BucketAlreadyOwnedByYou"
        · rw [if_pos hb2]
          cases po with
          | error e'' => rfl
          | ok u' => rfl
        · rw [if_neg hb2]

/-- Helper: the provisioning step itself never issues an attribute
modification (classic). -/
theorem newS3Bucket13_no_modify (env : ELBEnv) (n a r : String) :
    ((newS3Bucket13 env n a r).effects.all
      fun eff => !eff.isModifyAttribs) = true := by
  obtain ⟨da, gci, cb, po, pp, ma⟩ := env
  unfold newS3Bucket13
  dsimp only
  cases cb with
  | ok u => cases po <;> cases pp <;> rfl
  | error e =>
    dsimp only
    by_cases hb1 : e.code = "BucketAlreadyExists"
    · rw [if_pos hb1]; cases po <;> cases pp <;> rfl
    · rw [if_neg hb1]
      by_cases hb2 : e.code = "BucketAlreadyOwnedByYou"
      · rw [if_pos hb2]; cases po <;> cases pp <;> rfl
      · rw [if_neg hb2]; rfl

/-- Helper: the provisioning step itself never issues an attribute
modification (v2). -/
theorem newS3Bucket15_no_modify (env : ELBv2Env) (n a r : String) :
    ((newS3Bucket15 env n a r).effects.all
      fun eff => !eff.isModifyAttribs) = true := by
  obtain ⟨dlb, da, cb, po, pp, ma⟩ := env
  unfold newS3Bucket15
  dsimp only
  cases cb with
  | ok u => cases po <;> cases pp <;> rfl
  | error e =>
    dsimp only
    by_cases hb1 : e.code = "BucketAlreadyExists"
    · rw [if_pos hb1]; cases po <;> cases pp <;> rfl
    · rw [if_neg hb1]
      by_cases hb2 : e.code = "BucketAlreadyOwnedByYou"
      · rw [if_pos hb2]; cases po <;> cases pp <;> rfl
      · rw [if_neg hb2]; rfl

/-- Helper: when provisioning always fails, the classic remediator never
issues an attribute-modification call. -/
theorem remediate013_no_modify (alert : Alert) (env : ELBEnv)
    (h : ∀ n a r, (newS3Bucket13 env n a r).ret = "fail") :
    ((remediate013 alert env).effects.all
      fun eff => !eff.isModifyAttribs) = true := by
  unfold remediate013
  cases (pySplit alert.resource_id '/').get? 1 with
  | none => rfl
  | some n =>
    dsimp only
    cases hda : env.describeAttribs with
    | error e => rfl
    | ok a =>
      dsimp only
      obtain ⟨al⟩ := a
      cases al with
      | none => rfl
      | some logging =>
        dsimp only
        split
        · cases hg : env.getCallerIdentity with
          | error e => simp [get_account_id, hg]
          | ok account_id =>
            simp only [get_account_id, hg]
            split
            · rw [if_neg (by simp [h n account_id alert.region])]
              simp only [List.nil_append, List.all_append]
              exact newS3Bucket13_no_modify env n account_id alert.region
            · rfl
        · rfl

/-- Helper: when provisioning always fails, the v2 remediator never issues
an attribute-modification call. -/
theorem remediate015_no_modify (alert : Alert) (env : ELBv2Env)
    (h : ∀ n a r, (newS3Bucket15 env n a r).ret = "fail") :
    ((remediate015 alert env).effects.all
      fun eff => !eff.isModifyAttribs) = true := by
  unfold remediate015
  cases (pySplit alert.resource_id '/').get? 2 with
  | none => rfl
  | some n =>
    dsimp only
    cases env.describeLoadBalancers with
    | error e => rfl
    | ok lbs =>
      dsimp only
      cases lbs.head?.bind LoadBalancer.loadBalancerArn with
      | none => rfl
      | some elb_arn =>
        dsimp only
        cases (pySplit elb_arn ':').get? 4 with
        | none => rfl
        | some account_id =>
          dsimp only
          cases env.describeAttribs with
          | error e => rfl
          | ok attribs =>
            dsimp only
            split
            · rw [if_neg (by simp [h n account_id alert.region])]
              exact newS3Bucket15_no_modify env n account_id alert.region
            · rfl

/-- C6: in both load-balancer remediators' bucket-provisioning step, a
creation error with code `BucketAlreadyExists` or `BucketAlreadyOwnedByYou`
is treated as success — with the later steps succeeding the provisioning
returns the bucket name, so a repeat invocation against the same account
and region never fails because the bucket already exists; any other
creation error, or a marker-object or policy-attachment failure, makes
provisioning return `'fail'` and the attribute-modification call enabling
logging is never issued. -/
theorem C6_bucket_provisioning (alert : Alert) (env3 : ELBEnv)
    (env5 : ELBv2Env) (n a r : String) :
    (∀ e, env3.createBucket = Except.error e →
      (e.code = "BucketAlreadyExists" ∨ e.code = "BucketAlreadyOwnedByYou") →
      env3.putObject = Except.ok () → env3.putBucketPolicy = Except.ok () →
      (newS3Bucket13 env3 n a r).ret = "elblogs-" ++ a ++ "-" ++ r) ∧
    (∀ e, env5.createBucket = Except.error e →
      (e.code = "BucketAlreadyExists" ∨ e.code = "BucketAlreadyOwnedByYou") →
      env5.putObject = Except.ok () → env5.putBucketPolicy = Except.ok () →
      (newS3Bucket15 env5 n a r).ret = "elbv2logs-" ++ a ++ "-" ++ r) ∧
    (((∃ e, env3.createBucket = Except.error e ∧
          e.code ≠ "BucketAlreadyExists" ∧
          e.code ≠ "BucketAlreadyOwnedByYou") ∨
      (∃ e, env3.putObject = Except.error e) ∨
      (∃ e, env3.putBucketPolicy = Except.error e)) →
      (newS3Bucket13 env3 n a r).ret = "fail" ∧
      ((remediate013 alert env3).effects.all
        fun eff => !eff.isModifyAttribs) = true) ∧
    (((∃ e, env5.createBucket = Except.error e ∧
          e.code ≠ "BucketAlreadyExists" ∧
          e.code ≠ "BucketAlreadyOwnedByYou") ∨
      (∃ e, env5.putObject = Except.error e) ∨
      (∃ e, env5.putBucketPolicy = Except.error e)) →
      (newS3Bucket15 env5 n a r).ret = "fail" ∧
      ((remediate015 alert env5).effects.all
        fun eff => !eff.isModifyAttribs) = true) := by
  refine ⟨?_, ?_, ?_, ?_⟩
  · intro e he hcode hpo hpp
    obtain ⟨da, gci, cb, po, pp, ma⟩ := env3
    dsimp only at he hpo hpp
    subst he; subst hpo; subst hpp
    unfold newS3Bucket13
    dsimp only
    rcases hcode with hc | hc
    · rw [if_pos hc]
    · by_cases hb1 : e.code = "BucketAlreadyExists"
      · rw [if_pos hb1]
      · rw [if_neg hb1, if_pos hc]
  · intro e he hcode hpo hpp
    obtain ⟨dlb, da, cb, po, pp, ma⟩ := env5
    dsimp only at he hpo hpp
    subst he; subst hpo; subst hpp
    unfold newS3Bucket15
    dsimp only
    rcases hcode with hc | hc
    · rw [if_pos hc]
    · by_cases hb1 : e.code = "BucketAlreadyExists"
      · rw [if_pos hb1]
      · rw [if_neg hb1, if_pos hc]
  · intro h
    refine ⟨newS3Bucket13_fail env3 n a r h, ?_⟩
    exact remediate013_no_modify alert env3
      (fun n' a' r' => newS3Bucket13_fail env3 n' a' r' h)
  · intro h
    refine ⟨newS3Bucket15_fail env5 n a r h, ?_⟩
    exact remediate015_no_modify alert env5
      (fun n' a' r' => newS3Bucket15_fail env5 n' a' r' h)

/-- C6 witness: provisioning with an already-existing bucket and succeeding
later steps returns the bucket name, and a denied creation returns
`'fail'`. -/
theorem C6_bucket_provisioning_witness :
    (newS3Bucket13
        (ELBEnv.mk (Except.ok (ELBAttribs.mk (some (AccessLog.mk false))))
          (Except.ok "111122223333")
          (Except.error (ClientError.mk "BucketAlreadyOwnedByYou" "owned"))
          (Except.ok ()) (Except.ok ()) (Except.ok ()))
        "myelb" "111122223333" "us-west-2").ret
      = "elblogs-111122223333-us-west-2" :=
  (C6_bucket_provisioning (Alert.mk "x/myelb" "us-west-2")
      (ELBEnv.mk (Except.ok (ELBAttribs.mk (some (AccessLog.mk false))))
        (Except.ok "111122223333")
        (Except.error (ClientError.mk "BucketAlreadyOwnedByYou" "owned"))
        (Except.ok ()) (Except.ok ()) (Except.ok ()))
      (ELBv2Env.mk (Except.ok []) (Except.ok []) (Except.ok ())
        (Except.ok ()) (Except.ok ()) (Except.ok ()))
      "myelb" "111122223333" "us-west-2").1
    (ClientError.mk "BucketAlreadyOwnedByYou" "owned") rfl
    (Or.inr rfl) rfl rfl

/-- C7: for a classic load balancer whose attribute describe reports
`AccessLog.Enabled = True`, and for a v2 load balancer whose attribute list
reports `access_logs.s3.enabled = "true"`, the remediator issues no
mutating call at all — no bucket creation and no attribute modification:
the invocation is a no-op on external state. -/
theorem C7_enabled_noop (alert : Alert) (env3 : ELBEnv) (env5 : ELBv2Env)
    (a : ELBAttribs) (al : AccessLog)
    (h3d : env3.describeAttribs = Except.ok a) (h3a : a.accessLog = some al)
    (h3e : al.enabled = true)
    (attribs : List (String × String))
    (h5d : env5.describeAttribs = Except.ok attribs)
    (h5e : lastAttrValue attribs "access_logs.s3.enabled" "none" = "true") :
    (remediate013 alert env3).effects = [] ∧
    (remediate015 alert env5).effects = [] := by
  constructor
  · obtain ⟨da, gci, cb, po, pp, ma⟩ := env3
    dsimp only at h3d
    subst h3d
    obtain ⟨alv⟩ := a
    dsimp only at h3a
    subst h3a
    unfold remediate013
    cases (pySplit alert.resource_id '/').get? 1 with
    | none => rfl
    | some n =>
      dsimp only
      rw [if_neg (by simp [h3e])]
  · obtain ⟨dlb, da, cb, po, pp, ma⟩ := env5
    dsimp only at h5d
    subst h5d
    unfold remediate015
    cases (pySplit alert.resource_id '/').get? 2 with
    | none => rfl
    | some n =>
      dsimp only
      cases dlb with
      | error e => rfl
      | ok lbs =>
        dsimp only
        cases lbs.head?.bind LoadBalancer.loadBalancerArn with
        | none => rfl
        | some elb_arn =>
          dsimp only
          cases (pySplit elb_arn ':').get? 4 with
          | none => rfl
          | some account_id =>
            dsimp only
            rw [if_neg (by simp [h5e])]

/-- C7 witness: the theorem applied at enabled-logging describe responses,
where both load-balancer remediators issue no mutating call. -/
theorem C7_enabled_noop_witness :
    (remediate013 (Alert.mk "x/myelb" "us-west-2")
        (ELBEnv.mk (Except.ok (ELBAttribs.mk (some (AccessLog.mk true))))
          (Except.ok "1") (Except.ok ()) (Except.ok ()) (Except.ok ())
          (Except.ok ()))).effects = [] ∧
    (remediate015 (Alert.mk "app/myelb/abc" "us-west-2")
        (ELBv2Env.mk
          (Except.ok [LoadBalancer.mk (some
            "arn:aws:elasticloadbalancing:us-west-2:111122223333:loadbalancer/app/myelb/abc")])
          (Except.ok [("access_logs.s3.enabled", "true")]) (Except.ok ())
          (Except.ok ()) (Except.ok ()) (Except.ok ()))).effects = [] := by
  constructor
  · exact (C7_enabled_noop (Alert.mk "x/myelb" "us-west-2")
      (ELBEnv.mk (Except.ok (ELBAttribs.mk (some (AccessLog.mk true))))
        (Except.ok "1") (Except.ok ()) (Except.ok ()) (Except.ok ())
        (Except.ok ()))
      (ELBv2Env.mk
        (Except.ok [LoadBalancer.mk (some
          "arn:aws:elasticloadbalancing:us-west-2:111122223333:loadbalancer/app/myelb/abc")])
        (Except.ok [("access_logs.s3.enabled", "true")]) (Except.ok ())
        (Except.ok ()) (Except.ok ()) (Except.ok ()))
      (ELBAttribs.mk (some (AccessLog.mk true))) (AccessLog.mk true)
      rfl rfl rfl [("access_logs.s3.enabled", "true")] rfl rfl).1
  · exact (C7_enabled_noop (Alert.mk "app/myelb/abc" "us-west-2")
      (ELBEnv.mk (Except.ok (ELBAttribs.mk (some (AccessLog.mk true))))
        (Except.ok "1") (Except.ok ()) (Except.ok ()) (Except.ok ())
        (Except.ok ()))
      (ELBv2Env.mk
        (Except.ok [LoadBalancer.mk (some
          "arn:aws:elasticloadbalancing:us-west-2:111122223333:loadbalancer/app/myelb/abc")])
        (Except.ok [("access_logs.s3.enabled", "true")]) (Except.ok ())
        (Except.ok ()) (Except.ok ()) (Except.ok ()))
      (ELBAttribs.mk (some (AccessLog.mk true))) (AccessLog.mk true)
      rfl rfl rfl [("access_logs.s3.enabled", "true")] rfl rfl).2

/-- C8: a failed read-path call — snapshot describe, DB-instance describe,
classic-ELB attribute describe, classic-ELB caller-identity lookup, v2
lookup-by-name, or v2 attribute describe — aborts the invocation
immediately: no mutating call is issued, the provider's message is logged
verbatim as the only output, and the entry point returns normally.  The
identity and v2-attribute conjuncts carry the hypotheses that put the
invocation on the path that reaches those calls in the source. -/
theorem C8_read_abort (alert : Alert) (envE : EC2Env) (envR : RDSEnv)
    (env3 : ELBEnv) (env5 : ELBv2Env) (e : ClientError) :
    (envE.describeSnapshots = Except.error e →
      remediateEC2 alert envE = RunResult.mk [] [e.message] none) ∧
    (envR.describeDBInstances = Except.error e →
      remediateRDS alert envR = RunResult.mk [] [e.message] none) ∧
    (((pySplit alert.resource_id '/').get? 1).isSome →
      env3.describeAttribs = Except.error e →
      remediate013 alert env3 = RunResult.mk [] [e.message] none) ∧
    (((pySplit alert.resource_id '/').get? 2).isSome →
      env5.describeLoadBalancers = Except.error e →
      remediate015 alert env5 = RunResult.mk [] [e.message] none) ∧
    (∀ a al, ((pySplit alert.resource_id '/').get? 1).isSome →
      env3.describeAttribs = Except.ok a → a.accessLog = some al →
      al.enabled ≠ true → env3.getCallerIdentity = Except.error e →
      remediate013 alert env3 = RunResult.mk [] [e.message] none) ∧
    (∀ lbs elb_arn, ((pySplit alert.resource_id '/').get? 2).isSome →
      env5.describeLoadBalancers = Except.ok lbs →
      lbs.head?.bind LoadBalancer.loadBalancerArn = some elb_arn →
      ((pySplit elb_arn ':').get? 4).isSome →
      env5.describeAttribs = Except.error e →
      remediate015 alert env5 = RunResult.mk [] [e.message] none) := by
  refine ⟨?_, ?_, ?_, ?_, ?_, ?_⟩
  · intro h
    obtain ⟨ds, cs, today⟩ := envE
    dsimp only at h
    subst h
    rfl
  · intro h
    obtain ⟨ds, ms⟩ := envR
    dsimp only at h
    subst h
    rfl
  · intro hs h
    obtain ⟨n, hn⟩ := Option.isSome_iff_exists.mp hs
    obtain ⟨da, gci, cb, po, pp, ma⟩ := env3
    dsimp only at h
    subst h
    unfold remediate013
    rw [hn]
  · intro hs h
    obtain ⟨n, hn⟩ := Option.isSome_iff_exists.mp hs
    obtain ⟨dlb, da, cb, po, pp, ma⟩ := env5
    dsimp only at h
    subst h
    unfold remediate015
    rw [hn]
  · intro a al hs hda hal hen hg
    obtain ⟨n, hn⟩ := Option.isSome_iff_exists.mp hs
    obtain ⟨da, gci, cb, po, pp, ma⟩ := env3
    dsimp only at hda hg
    subst hda
    subst hg
    obtain ⟨alv⟩ := a
    dsimp only at hal
    subst hal
    unfold remediate013
    rw [hn]
    dsimp only
    rw [if_pos hen]
    simp only [get_account_id]
    rw [if_neg (by simp)]
  · intro lbs elb_arn hs hlb harn hacct4 hda
    obtain ⟨n, hn⟩ := Option.isSome_iff_exists.mp hs
    obtain ⟨acct, hacct⟩ := Option.isSome_iff_exists.mp hacct4
    obtain ⟨dlb, da, cb, po, pp, ma⟩ := env5
    dsimp only at hlb hda
    subst hlb
    subst hda
    unfold remediate015
    rw [hn]
    dsimp only
    rw [harn]
    dsimp only
    rw [hacct]

/-- C8 witness: the theorem applied at a failing read-path call for each
case — the snapshot describe, the classic attribute describe, the classic
caller-identity lookup (reached with logging disabled), and the v2
attribute describe (reached after a successful lookup) — where the result
is exactly the verbatim-logged abort. -/
theorem C8_read_abort_witness :
    remediateEC2 (Alert.mk "vol-1" "us-east-1")
        (EC2Env.mk (Except.error (ClientError.mk "AuthFailure" "nope"))
          (Except.ok "s") 100)
      = RunResult.mk [] ["nope"] none ∧
    remediate013 (Alert.mk "x/myelb" "us-west-2")
        (ELBEnv.mk (Except.error (ClientError.mk "AuthFailure" "nope"))
          (Except.ok "1") (Except.ok ()) (Except.ok ()) (Except.ok ())
          (Except.ok ()))
      = RunResult.mk [] ["nope"] none ∧
    remediate013 (Alert.mk "x/myelb" "us-west-2")
        (ELBEnv.mk (Except.ok (ELBAttribs.mk (some (AccessLog.mk false))))
          (Except.error (ClientError.mk "AuthFailure" "nope"))
          (Except.ok ()) (Except.ok ()) (Except.ok ()) (Except.ok ()))
      = RunResult.mk [] ["nope"] none ∧
    remediate015 (Alert.mk
        "arn:aws:elasticloadbalancing:us-west-2:111122223333:loadbalancer/app/myelb/abc123"
        "us-west-2")
        (ELBv2Env.mk
          (Except.ok [LoadBalancer.mk (some
            "arn:aws:elasticloadbalancing:us-west-2:111122223333:loadbalancer/app/myelb/abc123")])
          (Except.error (ClientError.mk "AuthFailure" "nope"))
          (Except.ok ()) (Except.ok ()) (Except.ok ()) (Except.ok ()))
      = RunResult.mk [] ["nope"] none := by
  refine ⟨?_, ?_, ?_, ?_⟩
  · exact (C8_read_abort (Alert.mk "x/myelb" "us-west-2")
      (EC2Env.mk (Except.error (ClientError.mk "AuthFailure" "nope"))
        (Except.ok "s") 100)
      (RDSEnv.mk (Except.ok []) (Except.ok ()))
      (ELBEnv.mk (Except.error (ClientError.mk "AuthFailure" "nope"))
        (Except.ok "1") (Except.ok ()) (Except.ok ()) (Except.ok ())
        (Except.ok ()))
      (ELBv2Env.mk (Except.ok []) (Except.ok []) (Except.ok ())
        (Except.ok ()) (Except.ok ()) (Except.ok ()))
      (ClientError.mk "AuthFailure" "nope")).1 rfl
  · exact (C8_read_abort (Alert.mk "x/myelb" "us-west-2")
      (EC2Env.mk (Except.error (ClientError.mk "AuthFailure" "nope"))
        (Except.ok "s") 100)
      (RDSEnv.mk (Except.ok []) (Except.ok ()))
      (ELBEnv.mk (Except.error (ClientError.mk "AuthFailure" "nope"))
        (Except.ok "1") (Except.ok ()) (Except.ok ()) (Except.ok ())
        (Except.ok ()))
      (ELBv2Env.mk (Except.ok []) (Except.ok []) (Except.ok ())
        (Except.ok ()) (Except.ok ()) (Except.ok ()))
      (ClientError.mk "AuthFailure" "nope")).2.2.1 (by decide) rfl
  · exact (C8_read_abort (Alert.mk "x/myelb" "us-west-2")
      (EC2Env.mk (Except.error (ClientError.mk "AuthFailure" "nope"))
        (Except.ok "s") 100)
      (RDSEnv.mk (Except.ok []) (Except.ok ()))
      (ELBEnv.mk (Except.ok (ELBAttribs.mk (some (AccessLog.mk false))))
        (Except.error (ClientError.mk "AuthFailure" "nope"))
        (Except.ok ()) (Except.ok ()) (Except.ok ()) (Except.ok ()))
      (ELBv2Env.mk (Except.ok []) (Except.ok []) (Except.ok ())
        (Except.ok ()) (Except.ok ()) (Except.ok ()))
      (ClientError.mk "AuthFailure" "nope")).2.2.2.2.1
      (ELBAttribs.mk (some (AccessLog.mk false))) (AccessLog.mk false)
      (by decide) rfl rfl (by decide) rfl
  · exact (C8_read_abort (Alert.mk
      "arn:aws:elasticloadbalancing:us-west-2:111122223333:loadbalancer/app/myelb/abc123"
      "us-west-2")
      (EC2Env.mk (Except.error (ClientError.mk "AuthFailure" "nope"))
        (Except.ok "s") 100)
      (RDSEnv.mk (Except.ok []) (Except.ok ()))
      (ELBEnv.mk (Except.error (ClientError.mk "AuthFailure" "nope"))
        (Except.ok "1") (Except.ok ()) (Except.ok ()) (Except.ok ())
        (Except.ok ()))
      (ELBv2Env.mk
        (Except.ok [LoadBalancer.mk (some
          "arn:aws:elasticloadbalancing:us-west-2:111122223333:loadbalancer/app/myelb/abc123")])
        (Except.error (ClientError.mk "AuthFailure" "nope"))
        (Except.ok ()) (Except.ok ()) (Except.ok ()) (Except.ok ()))
      (ClientError.mk "AuthFailure" "nope")).2.2.2.2.2
      [LoadBalancer.mk (some
        "arn:aws:elasticloadbalancing:us-west-2:111122223333:loadbalancer/app/myelb/abc123")]
      "arn:aws:elasticloadbalancing:us-west-2:111122223333:loadbalancer/app/myelb/abc123"
      (by decide) rfl rfl (by decide) rfl

/-- Helper: the v2 bucket name can never equal the sentinel `'fail'`. -/
theorem elbv2Bucket_ne_fail (a r : String) :
    ("elbv2logs-" ++ a ++ "-" ++ r) ≠ "fail" := by
  intro h
  have hl := congrArg String.length h
  rw [String.length_append, String.length_append,
    String.length_append] at hl
  have h1 : ("elbv2logs-" : String).length = 10 := rfl
  have h2 : ("-" : String).length = 1 := rfl
  have h3 : ("fail" : String).length = 4 := rfl
  omega

/-- C9: a v2 alert whose resource id's third path segment is `myelb`, whose
lookup succeeds with an ARN whose fifth `:`-segment is the account id, and
whose attribute list does not report logging enabled: with every
provisioning call succeeding, the remediator creates bucket
`elbv2logs-<account>-<region>`, puts the marker object at key `myelb/`,
attaches the generated bucket policy, and issues one
attribute-modification call setting `access_logs.s3.enabled = "true"`,
`access_logs.s3.bucket` to the bucket, and `access_logs.s3.prefix` to
`myelb`. -/
theorem C9_v2_full_flow (alert : Alert) (env5 : ELBv2Env)
    (elb_arn account_id : String) (lbs : List LoadBalancer)
    (attribs : List (String × String))
    (hname : (pySplit alert.resource_id '/').get? 2 = some "myelb")
    (hlb : env5.describeLoadBalancers = Except.ok lbs)
    (harn : lbs.head?.bind LoadBalancer.loadBalancerArn = some elb_arn)
    (hacct : (pySplit elb_arn ':').get? 4 = some account_id)
    (hattr : env5.describeAttribs = Except.ok attribs)
    (hnotEn : lastAttrValue attribs "access_logs.s3.enabled" "none"
      ≠ "true")
    (hcb : env5.createBucket = Except.ok ())
    (hpo : env5.putObject = Except.ok ())
    (hpp : env5.putBucketPolicy = Except.ok ())
    (hma : env5.modifyAttribs = Except.ok ()) :
    (remediate015 alert env5).effects =
      [Effect.createBucket
         ("elbv2logs-" ++ account_id ++ "-" ++ alert.region)
         (if alert.region = "us-east-1" then none else some alert.region),
       Effect.putObject ("elbv2logs-" ++ account_id ++ "-" ++ alert.region)
         "myelb/",
       Effect.putBucketPolicy
         ("elbv2logs-" ++ account_id ++ "-" ++ alert.region)
         (BucketTemplate.BucketPolicy
           ("elbv2logs-" ++ account_id ++ "-" ++ alert.region) account_id
           alert.region),
       Effect.modifyELBv2Attribs elb_arn
         [("access_logs.s3.enabled", "true"),
          ("access_logs.s3.bucket",
           "elbv2logs-" ++ account_id ++ "-" ++ alert.region),
          ("access_logs.s3.prefix", "myelb")]] := by
  obtain ⟨dlb, da, cb, po, pp, ma⟩ := env5
  dsimp only at hlb hattr hcb hpo hpp hma
  subst hlb; subst hattr; subst hcb; subst hpo; subst hpp; subst hma
  unfold remediate015
  rw [hname]
  dsimp only
  rw [harn]
  dsimp only
  rw [hacct]
  dsimp only
  rw [if_pos hnotEn]
  rw [if_pos (by
    simp only [newS3Bucket15]
    exact elbv2Bucket_ne_fail account_id alert.region)]
  simp only [newS3Bucket15, enableAccessLog15]
  rfl

/-- C9 witness: the theorem applied at a fully concrete v2 alert for
`myelb` in `us-west-2` with account `111122223333`. -/
theorem C9_v2_full_flow_witness :
    (remediate015 (Alert.mk
        "arn:aws:elasticloadbalancing:us-west-2:111122223333:loadbalancer/app/myelb/abc123"
        "us-west-2")
        (ELBv2Env.mk
          (Except.ok [LoadBalancer.mk (some
            "arn:aws:elasticloadbalancing:us-west-2:111122223333:loadbalancer/app/myelb/abc123")])
          (Except.ok [("access_logs.s3.enabled", "false")]) (Except.ok ())
          (Except.ok ()) (Except.ok ()) (Except.ok ()))).effects =
      [Effect.createBucket "elbv2logs-111122223333-us-west-2"
         (if ("us-west-2" : String) = "us-east-1" then none
          else some "us-west-2"),
       Effect.putObject "elbv2logs-111122223333-us-west-2" "myelb/",
       Effect.putBucketPolicy "elbv2logs-111122223333-us-west-2"
         (BucketTemplate.BucketPolicy "elbv2logs-111122223333-us-west-2"
           "111122223333" "us-west-2"),
       Effect.modifyELBv2Attribs
         "arn:aws:elasticloadbalancing:us-west-2:111122223333:loadbalancer/app/myelb/abc123"
         [("access_logs.s3.enabled", "true"),
          ("access_logs.s3.bucket", "elbv2logs-111122223333-us-west-2"),
          ("access_logs.s3.prefix", "myelb")]] :=
  C9_v2_full_flow (Alert.mk
      "arn:aws:elasticloadbalancing:us-west-2:111122223333:loadbalancer/app/myelb/abc123"
      "us-west-2")
    (ELBv2Env.mk
      (Except.ok [LoadBalancer.mk (some
        "arn:aws:elasticloadbalancing:us-west-2:111122223333:loadbalancer/app/myelb/abc123")])
      (Except.ok [("access_logs.s3.enabled", "false")]) (Except.ok ())
      (Except.ok ()) (Except.ok ()) (Except.ok ()))
    "arn:aws:elasticloadbalancing:us-west-2:111122223333:loadbalancer/app/myelb/abc123"
    "111122223333"
    [LoadBalancer.mk (some
      "arn:aws:elasticloadbalancing:us-west-2:111122223333:loadbalancer/app/myelb/abc123")]
    [("access_logs.s3.enabled", "false")]
    (by decide) rfl rfl (by decide) rfl (by decide) rfl rfl rfl rfl

/-- C3 witness: the theorem applied at a publicly accessible instance,
where exactly the one modify call is issued. -/
theorem C3_rds_modify_witness :
    (remediateRDS (Alert.mk "db-ABC" "us-east-1")
        (RDSEnv.mk (Except.ok [DBInstance.mk (some true) "mydb"])
          (Except.ok ()))).effects
      = [Effect.modifyDBInstance "mydb" false] :=
  (((C3_rds_modify (Alert.mk "db-ABC" "us-east-1")
      (RDSEnv.mk (Except.ok [DBInstance.mk (some true) "mydb"])
        (Except.ok ()))
      [DBInstance.mk (some true) "mydb"] rfl).2
    (DBInstance.mk (some true) "mydb") [] rfl).1 rfl)

